import Mathlib

/-!
Verification of the nequip benchmark script (`nequip/scripts/benchmark.py`).

The script is a single linear pipeline: sample frames from a dataset with a
seeded permutation, validate a uniform atom count, print diagnostics, build and
prepare the model, warm up, then either profile or time the model, and report
derived metrics.  We embed the pipeline as a pure function producing the
ordered list of its observable events, with the externals (the torch
permutation generator `rp`, the measured representative time `t`, the dataset,
and the tensor store) passed in as inputs.

Frames are mappings from field names to tensor references into a backing
store, which lets us reason about the shallow `dict.copy()` the driver
performs on each retrieval from the cyclic pool.
-/

set_option linter.unusedVariables false

namespace NequipBenchmark

/-- A tensor value: a list of integers.  The atom count of a frame is the
length of its positions tensor. -/
abbrev Tensor := List Int

/-- A reference to a tensor in the backing store; Python tensors are mutable
heap objects shared between aliasing mappings. -/
abbrev TensorRef := Nat

/-- The backing store of tensors, indexed by `TensorRef`. -/
abbrev Store := List Tensor

/-- A frame (an `AtomicDataDict`): a mapping from field names to tensors,
here an association list from names to tensor references. -/
abbrev Frame := List (String × TensorRef)

/-- Python `dict.copy()` on a frame mapping (src lines 191, 197, 204:
`next(datas).copy()`): a new mapping with the same keys bound to the same
tensor references, i.e. a shallow copy. -/
def dictCopy (d : Frame) : Frame := d.map (fun p => p)

/-- An in-place write into a tensor (a model mutating a tensor of a frame it
was passed): the store is updated at the shared reference. -/
def tensorWrite (st : Store) (r : TensorRef) (v : Tensor) : Store := st.set r v

/-- Field lookup `d[key]` in a frame mapping (missing keys are modelled by
reference 0). -/
def fieldRef (d : Frame) (key : String) : TensorRef :=
  ((d.find? (fun p => p.1 == key)).map (fun p => p.2)).getD 0

/-- `len(d["pos"])` (src line 101): the number of atoms of a frame. -/
def natoms (st : Store) (d : Frame) : Nat :=
  (st.getD (fieldRef d "pos") []).length

/-- The observable contents of a frame: each field together with the value of
its tensor in the store. -/
def materialize (st : Store) (d : Frame) : List (String × Tensor) :=
  d.map (fun p => (p.1, st.getD p.2 []))

/-- `itertools.cycle(datas)` (src line 130): the frame yielded by the k-th
retrieval (0-based) from the cyclic pool, before copying. -/
def cycleGet (datas : List Frame) (k : Nat) : Frame :=
  datas.getD (k % datas.length) []

/-- One retrieval from the cyclic pool exactly as the driver performs it
(src lines 191, 197, 204): `next(datas).copy()`. -/
def retrieve (datas : List Frame) (k : Nat) : Frame :=
  dictCopy (cycleGet datas k)

/-- The configuration keys the benchmark reads (src lines 96 and 171:
`dataset_seed`, `seed`, `_jit_bailout_depth`). -/
structure BenchConfig where
  dataset_seed : Option Nat
  seed : Option Nat
  jit_bailout_depth : Nat
deriving DecidableEq

/-- The command-line arguments of `nequip-benchmark` (src lines 29-67), with
the device already resolved to a name. -/
structure Args where
  profile : Option String
  device : String
  n : Nat
  n_data : Nat
  timestep : ℚ
  no_compile : Bool
deriving DecidableEq

/-- `config.get("dataset_seed", config.get("seed", 12345))` (src line 96). -/
def resolveSeed (config : BenchConfig) : Nat :=
  config.dataset_seed.getD (config.seed.getD 12345)

/-- `torch.randperm(len(dataset), generator=dataset_rng)[: args.n_data]`
(src line 99).  The generator `rp` abstracts `torch.randperm` as a
deterministic function of the seed and the length; the slice keeps the first
`n_data` positions of the permutation. -/
def sampledIndices (rp : Nat → Nat → List Nat) (seed N n_data : Nat) : List Nat :=
  (rp seed N).take n_data

/-- `datas` (src lines 97-100): the sampled frames, in sampling order. -/
def sampledFrames (rp : Nat → Nat → List Nat) (seed : Nat) (dataset : List Frame)
    (n_data : Nat) : List Frame :=
  (sampledIndices rp seed dataset.length n_data).map (fun i => dataset.getD i [])

/-- `per_atom_time = trim_time / n_atom` (src line 225). -/
def per_atom_time (t : ℚ) (n_atom : Nat) : ℚ := t / n_atom

/-- `ns_day = (86400.0 / trim_time) * args.timestep * 1e-6` (src line 230). -/
def ns_day (t timestep : ℚ) : ℚ := (86400 / t) * timestep * (1 / 1000000)

/-- The black-box transforms applied to the model during preparation
(src lines 148-168). -/
inductive Transform where
  | script
  | compileForDeploy
  | save
  | load (device : String)
  | freeze
  | toDevice (device : String)
deriving DecidableEq

/-- The model is opaque to the harness; we track it as the history of
transforms applied to it, most recent first. -/
abbrev ModelState := List Transform

/-- Model preparation (src lines 149-168): with `--no-compile` just move the
model to the device; otherwise script it, compile it for deploy, save and
reload it onto the device, freeze it, and save and reload it once more. -/
def prepareModel (no_compile : Bool) (device : String) (model : ModelState) : ModelState :=
  if no_compile then Transform.toDevice device :: model
  else
    let model := Transform.script :: model
    let model := Transform.compileForDeploy :: model
    let model := Transform.load device :: Transform.save :: model
    let model := Transform.freeze :: model
    let model := Transform.load device :: Transform.save :: model
    model

/-- The arguments of `torch.profiler.schedule` (src lines 185-187);
`rep` is the schedule's `repeat` count. -/
structure Sched where
  wait : Nat
  warmup : Nat
  active : Nat
  rep : Nat
deriving DecidableEq

/-- The exceptions the sampling phase can raise: `datas[0]` on an empty
sample (src line 101) and the variable-atom-count `NotImplementedError`
(src lines 102-105). -/
inductive BenchError where
  | indexError
  | notImplementedError
deriving DecidableEq

/-- The observable events of one benchmark run, in program order. -/
inductive Event where
  | sample (idxs : List Nat)
  | err (e : BenchError)
  | diagnostics
  | buildModel
  | prep (t : Transform)
  | profStart (s : Sched)
  | profCall (frame : Nat)
  | profStep
  | exportTrace (path : String)
  | warmupCall (frame : Nat)
  | timedCall (frame : Nat)
  | report (perAtom nsDay : ℚ)
deriving DecidableEq

/-- `warmup = config["_jit_bailout_depth"] + 4` (src line 171). -/
def warmupOf (config : BenchConfig) : Nat := config.jit_bailout_depth + 4

/-- The warmup loop (src lines 196-197) over a pool of `L` frames, starting
at cycle position `i`: each iteration consumes one frame from the pool. -/
def warmupEvents (L : Nat) : Nat → Nat → List Event
  | _, 0 => []
  | i, m + 1 => Event.warmupCall (i % L) :: warmupEvents L (i + 1) m

/-- The profiled loop (src lines 190-192): each model call is followed by
`p.step()`, advancing the schedule. -/
def profileEvents (L : Nat) : Nat → Nat → List Event
  | _, 0 => []
  | i, m + 1 => Event.profCall (i % L) :: Event.profStep :: profileEvents L (i + 1) m

/-- The `n` timed executions of `model(next(datas).copy())` performed by the
Timer (src lines 203-206), continuing the cycle from position `i`. -/
def timedEvents (L : Nat) : Nat → Nat → List Event
  | _, 0 => []
  | i, m + 1 => Event.timedCall (i % L) :: timedEvents L (i + 1) m

/-- Model preparation as chronological events. -/
def prepEvents (no_compile : Bool) (device : String) : List Event :=
  (prepareModel no_compile device []).reverse.map Event.prep

/-- The events after the dataset diagnostics (src lines 132-234): short
circuit on `-n 0`; otherwise build the model, prepare it, and either profile
(when a trace path was requested) or warm up and time.  The representative
measured time `t` is an input: wall-clock measurement is outside the model. -/
def runEvents (args : Args) (config : BenchConfig) (L n_atom : Nat) (t : ℚ) : List Event :=
  if args.n = 0 then []
  else
    Event.buildModel ::
      (prepEvents args.no_compile args.device ++
        match args.profile with
        | some path =>
            Event.profStart ⟨1, warmupOf config, args.n, 1⟩ ::
              (profileEvents L 0 (1 + warmupOf config + args.n) ++ [Event.exportTrace path])
        | none =>
            warmupEvents L 0 (warmupOf config) ++
              (timedEvents L (warmupOf config) args.n ++
                [Event.report (per_atom_time t n_atom) (ns_day t args.timestep)]))

/-- The benchmark pipeline (src lines 95-234) as its sequence of observable
events: sample indices via the seeded permutation, materialize the frames,
read the atom count of the first frame (`IndexError` on an empty sample),
check atom-count uniformity (`NotImplementedError` otherwise), print the
diagnostics, and run. -/
def mainEvents (rp : Nat → Nat → List Nat) (args : Args) (config : BenchConfig)
    (dataset : List Frame) (st : Store) (t : ℚ) : List Event :=
  let idxs := sampledIndices rp (resolveSeed config) dataset.length args.n_data
  let datas := sampledFrames rp (resolveSeed config) dataset args.n_data
  if datas.isEmpty then [Event.sample idxs, Event.err BenchError.indexError]
  else if datas.all (fun d => natoms st d == natoms st (datas.headD [])) then
    Event.sample idxs :: Event.diagnostics ::
      runEvents args config datas.length (natoms st (datas.headD [])) t
  else [Event.sample idxs, Event.err BenchError.notImplementedError]

/-- The sampling phase succeeds: the sample is nonempty and all sampled
frames have the atom count of the first one. -/
def sampleOK (rp : Nat → Nat → List Nat) (args : Args) (config : BenchConfig)
    (dataset : List Frame) (st : Store) : Bool :=
  let datas := sampledFrames rp (resolveSeed config) dataset args.n_data
  !datas.isEmpty && datas.all (fun d => natoms st d == natoms st (datas.headD []))

/-- Event classifiers used to count model invocations and artifacts. -/
def isProfCall : Event → Bool
  | Event.profCall _ => true
  | _ => false

def isWarmupCall : Event → Bool
  | Event.warmupCall _ => true
  | _ => false

def isTimedCall : Event → Bool
  | Event.timedCall _ => true
  | _ => false

def isModelCall : Event → Bool
  | Event.profCall _ => true
  | Event.warmupCall _ => true
  | Event.timedCall _ => true
  | _ => false

def isExportEvent : Event → Bool
  | Event.exportTrace _ => true
  | _ => false

def isReport : Event → Bool
  | Event.report _ _ => true
  | _ => false

def isErr : Event → Bool
  | Event.err _ => true
  | _ => false

/-- Transform classifiers used to count serialize/reload steps. -/
def isSave : Transform → Bool
  | Transform.save => true
  | _ => false

def isLoadT : Transform → Bool
  | Transform.load _ => true
  | _ => false

def isFreeze : Transform → Bool
  | Transform.freeze => true
  | _ => false

/-- An identity permutation generator, used to instantiate theorems at
concrete inputs. -/
def rpId : Nat → Nat → List Nat := fun _ N => List.range N

lemma dictCopy_eq (d : Frame) : dictCopy d = d := by
  simp [dictCopy]

lemma mainEvents_of_sampleOK (rp : Nat → Nat → List Nat) (args : Args)
    (config : BenchConfig) (dataset : List Frame) (st : Store) (t : ℚ)
    (hok : sampleOK rp args config dataset st = true) :
    mainEvents rp args config dataset st t =
      Event.sample (sampledIndices rp (resolveSeed config) dataset.length args.n_data) ::
        Event.diagnostics ::
          runEvents args config
            (sampledFrames rp (resolveSeed config) dataset args.n_data).length
            (natoms st
              ((sampledFrames rp (resolveSeed config) dataset args.n_data).headD [])) t := by
  simp only [sampleOK, Bool.and_eq_true, Bool.not_eq_true'] at hok
  obtain ⟨h1, h2⟩ := hok
  simp only [mainEvents, h1, h2, Bool.false_eq_true, if_false, if_true]

lemma mainEvents_head (rp : Nat → Nat → List Nat) (args : Args)
    (config : BenchConfig) (dataset : List Frame) (st : Store) (t : ℚ) :
    (mainEvents rp args config dataset st t).head? =
      some (Event.sample
        (sampledIndices rp (resolveSeed config) dataset.length args.n_data)) := by
  simp only [mainEvents]
  split
  · rfl
  · split <;> rfl

lemma profileEvents_countP_profCall (L i m : Nat) :
    (profileEvents L i m).countP isProfCall = m := by
  induction m generalizing i with
  | zero => rfl
  | succ m ih => simp [profileEvents, List.countP_cons, isProfCall, ih]

lemma profileEvents_countP_zero (f : Event → Bool) (L i m : Nat)
    (h1 : ∀ j, f (Event.profCall j) = false) (h2 : f Event.profStep = false) :
    (profileEvents L i m).countP f = 0 := by
  induction m generalizing i with
  | zero => rfl
  | succ m ih => simp [profileEvents, List.countP_cons, h1, h2, ih]

lemma warmupEvents_countP_warmupCall (L i m : Nat) :
    (warmupEvents L i m).countP isWarmupCall = m := by
  induction m generalizing i with
  | zero => rfl
  | succ m ih => simp [warmupEvents, List.countP_cons, isWarmupCall, ih]

lemma warmupEvents_countP_zero (f : Event → Bool) (L i m : Nat)
    (h : ∀ j, f (Event.warmupCall j) = false) :
    (warmupEvents L i m).countP f = 0 := by
  induction m generalizing i with
  | zero => rfl
  | succ m ih => simp [warmupEvents, List.countP_cons, h, ih]

lemma timedEvents_countP_timedCall (L i m : Nat) :
    (timedEvents L i m).countP isTimedCall = m := by
  induction m generalizing i with
  | zero => rfl
  | succ m ih => simp [timedEvents, List.countP_cons, isTimedCall, ih]

lemma timedEvents_countP_zero (f : Event → Bool) (L i m : Nat)
    (h : ∀ j, f (Event.timedCall j) = false) :
    (timedEvents L i m).countP f = 0 := by
  induction m generalizing i with
  | zero => rfl
  | succ m ih => simp [timedEvents, List.countP_cons, h, ih]

lemma prepEvents_countP_zero (f : Event → Bool) (nc : Bool) (dev : String)
    (h : ∀ tr, f (Event.prep tr) = false) :
    (prepEvents nc dev).countP f = 0 := by
  cases nc <;> simp [prepEvents, prepareModel, List.countP_cons, h]

lemma runEvents_n_data_irrel (args : Args) (config : BenchConfig)
    (L n_atom m : Nat) (t : ℚ) :
    runEvents { args with n_data := m } config L n_atom t =
      runEvents args config L n_atom t := rfl

/-- C4: the derived metrics are pure functions of the representative time,
the atom count and the timestep: per-atom time is t / A and ns/day is
86400 × Δ × 1e-6 / t; at t = 1 s, A = 100, Δ = 1 fs they come out to
0.01 s and 0.0864 ns/day. -/
theorem metrics_pure (t Δ : ℚ) (A : Nat) :
    per_atom_time t A = t / A ∧
    ns_day t Δ = 86400 * Δ * (1 / 1000000) / t ∧
    per_atom_time 1 100 = 1 / 100 ∧
    ns_day 1 1 = 864 / 10000 := by
  refine ⟨rfl, ?_, by norm_num [per_atom_time], by norm_num [ns_day]⟩
  unfold ns_day
  ring

/-- C3: on the compiled path the preparation applies, in order, the script
transform, the deploy compile, a save/load round trip onto the device, the
freeze transform, and a second save/load round trip — exactly two
serialize/reload cycles, one on each side of the freeze step. -/
theorem compiled_path_steps (device : String) (model : ModelState) :
    prepareModel false device model =
      Transform.load device :: Transform.save :: Transform.freeze ::
        Transform.load device :: Transform.save :: Transform.compileForDeploy ::
          Transform.script :: model ∧
    prepEvents false device =
      [Event.prep Transform.script, Event.prep Transform.compileForDeploy,
       Event.prep Transform.save, Event.prep (Transform.load device),
       Event.prep Transform.freeze, Event.prep Transform.save,
       Event.prep (Transform.load device)] ∧
    (prepareModel false device []).countP isSave = 2 ∧
    (prepareModel false device []).countP isLoadT = 2 ∧
    (prepareModel false device []).countP isFreeze = 1 := by
  exact ⟨rfl, rfl, rfl, rfl, rfl⟩

/-- C2 counterexample: with a one-frame pool whose positions field is tensor
reference 0 and a store holding the tensor [5] there, retrieval 0 hands out a
shallow copy sharing tensor 0; an in-place write of [7] through that shared
tensor changes what retrieval 1 materializes, so a later retrieval of the
frame IS affected by the mutation. -/
theorem shallow_copy_shares_tensors :
    (0 : TensorRef) ∈ (retrieve [[("pos", 0)]] 0).map (fun p => p.2) ∧
    materialize (tensorWrite [[5]] 0 [7]) (retrieve [[("pos", 0)]] 1) ≠
      materialize [[5]] (retrieve [[("pos", 0)]] 1) := by
  exact ⟨by decide, by decide⟩

/-- C2 amended: each retrieval from the cyclic pool yields a fresh shallow
copy of the next frame in round-robin order (the mapping is fresh, the tensor
references are shared); the cycle has period equal to the pool size; and an
in-place write into a tensor shared with a retrieved frame is visible in
later retrievals of that frame. -/
theorem retrieve_shallow_copy (datas : List Frame) (st : Store) (k : Nat)
    (r : TensorRef) (v : Tensor)
    (hmem : r ∈ (retrieve datas k).map (fun p => p.2))
    (hval : st.getD r [] ≠ v) (hr : r < st.length) :
    retrieve datas k = dictCopy (datas.getD (k % datas.length) []) ∧
    retrieve datas (k + datas.length) = retrieve datas k ∧
    materialize (tensorWrite st r v) (retrieve datas k) ≠
      materialize st (retrieve datas k) := by
  refine ⟨rfl, ?_, ?_⟩
  · unfold retrieve cycleGet
    rw [Nat.add_mod_right]
  · intro heq
    obtain ⟨p, hp, hpr⟩ := List.mem_map.1 hmem
    have h2 : (p.1, (tensorWrite st r v).getD p.2 []) = (p.1, st.getD p.2 []) := by
      have := (List.map_eq_map_iff).1 heq p hp
      simpa [materialize] using this
    have h3 : (tensorWrite st r v).getD r [] = st.getD r [] := by
      have := congrArg Prod.snd h2
      simpa [hpr] using this
    apply hval
    rw [← h3]
    unfold tensorWrite
    rw [List.getD_eq_getElem?_getD, List.getElem?_set_self hr]
    rfl

/-- Witness for retrieve_shallow_copy at the pool of the counterexample with
k = 0, r = 0, v = [7]. -/
theorem retrieve_shallow_copy_witness :
    retrieve [[("pos", 0)]] 0 = dictCopy ([[("pos", 0)]].getD (0 % 1) []) ∧
    retrieve [[("pos", 0)]] (0 + 1) = retrieve [[("pos", 0)]] 0 ∧
    materialize (tensorWrite [[5]] 0 [7]) (retrieve [[("pos", 0)]] 0) ≠
      materialize [[5]] (retrieve [[("pos", 0)]] 0) :=
  retrieve_shallow_copy [[("pos", 0)]] [[5]] 0 0 [7] (by decide) (by decide) (by decide)

/-- C1 counterexample: on a dataset of size 1, requesting n_data = 2 > 1 does
not fail: the run raises no error and model construction does occur, refuting
the claim that oversized requests fail with a configuration error before
model construction. -/
theorem oversample_no_error :
    Event.buildModel ∈
      mainEvents rpId
        { profile := some "p", device := "cpu", n := 1, n_data := 2,
          timestep := 1, no_compile := true }
        { dataset_seed := some 0, seed := none, jit_bailout_depth := 0 }
        [[("pos", 0)]] [[5]] 0 ∧
    (mainEvents rpId
        { profile := some "p", device := "cpu", n := 1, n_data := 2,
          timestep := 1, no_compile := true }
        { dataset_seed := some 0, seed := none, jit_bailout_depth := 0 }
        [[("pos", 0)]] [[5]] 0).countP isErr = 0 := by
  exact ⟨by decide, by decide⟩

/-- C1 amended: the sampler never rejects an oversized request: the slice
keeps the first min(n_data, N) entries of the seeded permutation, so for
n_data ≤ N the sample is the first n_data entries, while for n_data > N no
configuration error is raised and the whole run behaves exactly as a request
for all N frames. -/
theorem oversample_truncates (rp : Nat → Nat → List Nat) (args : Args)
    (config : BenchConfig) (dataset : List Frame) (st : Store) (t : ℚ)
    (hlen : (rp (resolveSeed config) dataset.length).length = dataset.length) :
    (sampledIndices rp (resolveSeed config) dataset.length args.n_data).length =
        min args.n_data dataset.length ∧
    (dataset.length ≤ args.n_data →
      sampledIndices rp (resolveSeed config) dataset.length args.n_data =
          rp (resolveSeed config) dataset.length ∧
      mainEvents rp args config dataset st t =
        mainEvents rp { args with n_data := dataset.length } config dataset st t) := by
  constructor
  · rw [sampledIndices, List.length_take, hlen]
  · intro hle
    have hs : sampledIndices rp (resolveSeed config) dataset.length args.n_data =
        rp (resolveSeed config) dataset.length := by
      rw [sampledIndices, List.take_of_length_le (le_trans (le_of_eq hlen) hle)]
    have hs2 : sampledIndices rp (resolveSeed config) dataset.length dataset.length =
        rp (resolveSeed config) dataset.length := by
      rw [sampledIndices, List.take_of_length_le (le_of_eq hlen)]
    refine ⟨hs, ?_⟩
    simp only [mainEvents, sampledFrames]
    rw [hs, hs2]
    exact rfl

/-- Witness for oversample_truncates on a dataset of size 1 with n_data = 2. -/
theorem oversample_truncates_witness :
    (sampledIndices rpId
        (resolveSeed { dataset_seed := some 0, seed := none, jit_bailout_depth := 0 })
        1 2).length = min 2 1 ∧
    mainEvents rpId
        { profile := none, device := "cpu", n := 1, n_data := 2,
          timestep := 1, no_compile := true }
        { dataset_seed := some 0, seed := none, jit_bailout_depth := 0 }
        [[("pos", 0)]] [[5]] 1 =
      mainEvents rpId
        { profile := none, device := "cpu", n := 1, n_data := 1,
          timestep := 1, no_compile := true }
        { dataset_seed := some 0, seed := none, jit_bailout_depth := 0 }
        [[("pos", 0)]] [[5]] 1 := by
  have h := oversample_truncates rpId
    { profile := none, device := "cpu", n := 1, n_data := 2,
      timestep := 1, no_compile := true }
    { dataset_seed := some 0, seed := none, jit_bailout_depth := 0 }
    [[("pos", 0)]] [[5]] 1 (by decide)
  exact ⟨h.1, (h.2 (by decide)).2⟩

/-- C5: in tracing mode (a trace path requested, n ≠ 0 trials and a valid
sample) the run registers a profiler session scheduled wait=1, warmup=w,
active=n, repeat=1, performs 1 + w + n model calls inside the session, each
immediately followed by a schedule step, writes exactly one trace artifact at
the requested path, and produces no representative-time report. -/
theorem tracing_mode (rp : Nat → Nat → List Nat) (args : Args)
    (config : BenchConfig) (dataset : List Frame) (st : Store) (t : ℚ)
    (path : String)
    (hp : args.profile = some path) (hn : args.n ≠ 0)
    (hok : sampleOK rp args config dataset st = true) :
    mainEvents rp args config dataset st t =
      Event.sample (sampledIndices rp (resolveSeed config) dataset.length args.n_data) ::
        Event.diagnostics :: Event.buildModel ::
          (prepEvents args.no_compile args.device ++
            Event.profStart ⟨1, warmupOf config, args.n, 1⟩ ::
              (profileEvents
                  (sampledFrames rp (resolveSeed config) dataset args.n_data).length 0
                  (1 + warmupOf config + args.n) ++
                [Event.exportTrace path])) ∧
    (mainEvents rp args config dataset st t).countP isProfCall =
        1 + warmupOf config + args.n ∧
    (mainEvents rp args config dataset st t).countP isExportEvent = 1 ∧
    (mainEvents rp args config dataset st t).countP isReport = 0 := by
  have hmain := mainEvents_of_sampleOK rp args config dataset st t hok
  simp only [runEvents, hp, if_neg hn] at hmain
  have hprep1 : (prepEvents args.no_compile args.device).countP isProfCall = 0 :=
    prepEvents_countP_zero _ _ _ (fun tr => rfl)
  have hprep2 : (prepEvents args.no_compile args.device).countP isExportEvent = 0 :=
    prepEvents_countP_zero _ _ _ (fun tr => rfl)
  have hprep3 : (prepEvents args.no_compile args.device).countP isReport = 0 :=
    prepEvents_countP_zero _ _ _ (fun tr => rfl)
  have hpe1 := profileEvents_countP_profCall
    (sampledFrames rp (resolveSeed config) dataset args.n_data).length 0
    (1 + warmupOf config + args.n)
  have hpe2 : (profileEvents
      (sampledFrames rp (resolveSeed config) dataset args.n_data).length 0
      (1 + warmupOf config + args.n)).countP isExportEvent = 0 :=
    profileEvents_countP_zero _ _ _ _ (fun j => rfl) rfl
  have hpe3 : (profileEvents
      (sampledFrames rp (resolveSeed config) dataset args.n_data).length 0
      (1 + warmupOf config + args.n)).countP isReport = 0 :=
    profileEvents_countP_zero _ _ _ _ (fun j => rfl) rfl
  refine ⟨hmain, ?_, ?_, ?_⟩ <;>
    rw [hmain] <;>
    simp [List.countP_cons, List.countP_append, hprep1, hprep2, hprep3,
      hpe1, hpe2, hpe3, isProfCall, isExportEvent, isReport]

/-- Witness for tracing_mode at a concrete one-frame run with n = 2 and
bailout depth 0. -/
theorem tracing_mode_witness :
    (mainEvents rpId
        { profile := some "p", device := "cpu", n := 2, n_data := 1,
          timestep := 1, no_compile := true }
        { dataset_seed := none, seed := none, jit_bailout_depth := 0 }
        [[("pos", 0)]] [[5]] 0).countP isExportEvent = 1 :=
  (tracing_mode rpId
    { profile := some "p", device := "cpu", n := 2, n_data := 1,
      timestep := 1, no_compile := true }
    { dataset_seed := none, seed := none, jit_bailout_depth := 0 }
    [[("pos", 0)]] [[5]] 0 "p" rfl (by decide) (by decide)).2.2.1

/-- C6: the warmup depth is read from the configuration as the jit bailout
depth plus the fixed margin 4, and in timing mode (no trace path, n ≠ 0, a
valid sample) the run performs exactly that many warmup calls, each consuming
the next frame of the cyclic pool, before the n timed calls and the report —
warmup calls are a separate phase, not part of the measurement. -/
theorem warmup_depth (rp : Nat → Nat → List Nat) (args : Args)
    (config : BenchConfig) (dataset : List Frame) (st : Store) (t : ℚ)
    (hp : args.profile = none) (hn : args.n ≠ 0)
    (hok : sampleOK rp args config dataset st = true) :
    warmupOf config = config.jit_bailout_depth + 4 ∧
    mainEvents rp args config dataset st t =
      Event.sample (sampledIndices rp (resolveSeed config) dataset.length args.n_data) ::
        Event.diagnostics :: Event.buildModel ::
          (prepEvents args.no_compile args.device ++
            (warmupEvents
                (sampledFrames rp (resolveSeed config) dataset args.n_data).length 0
                (warmupOf config) ++
              (timedEvents
                  (sampledFrames rp (resolveSeed config) dataset args.n_data).length
                  (warmupOf config) args.n ++
                [Event.report
                  (per_atom_time t
                    (natoms st
                      ((sampledFrames rp (resolveSeed config) dataset args.n_data).headD [])))
                  (ns_day t args.timestep)]))) ∧
    (mainEvents rp args config dataset st t).countP isWarmupCall =
        config.jit_bailout_depth + 4 ∧
    (mainEvents rp args config dataset st t).countP isTimedCall = args.n := by
  have hmain := mainEvents_of_sampleOK rp args config dataset st t hok
  simp only [runEvents, hp, if_neg hn] at hmain
  have hprep1 : (prepEvents args.no_compile args.device).countP isWarmupCall = 0 :=
    prepEvents_countP_zero _ _ _ (fun tr => rfl)
  have hprep2 : (prepEvents args.no_compile args.device).countP isTimedCall = 0 :=
    prepEvents_countP_zero _ _ _ (fun tr => rfl)
  have hw1 := warmupEvents_countP_warmupCall
    (sampledFrames rp (resolveSeed config) dataset args.n_data).length 0 (warmupOf config)
  have hw2 : (warmupEvents
      (sampledFrames rp (resolveSeed config) dataset args.n_data).length 0
      (warmupOf config)).countP isTimedCall = 0 :=
    warmupEvents_countP_zero _ _ _ _ (fun j => rfl)
  have ht1 : (timedEvents
      (sampledFrames rp (resolveSeed config) dataset args.n_data).length
      (warmupOf config) args.n).countP isWarmupCall = 0 :=
    timedEvents_countP_zero _ _ _ _ (fun j => rfl)
  have ht2 := timedEvents_countP_timedCall
    (sampledFrames rp (resolveSeed config) dataset args.n_data).length
    (warmupOf config) args.n
  simp only [warmupOf] at hw1 hw2 ht1 ht2
  refine ⟨rfl, hmain, ?_, ?_⟩ <;>
    rw [hmain] <;>
    simp [List.countP_cons, List.countP_append, hprep1, hprep2, hw1, hw2, ht1, ht2,
      isWarmupCall, isTimedCall, warmupOf]

/-- Witness for warmup_depth at a concrete one-frame run with bailout depth 2,
so 2 + 4 = 6 warmup calls. -/
theorem warmup_depth_witness :
    (mainEvents rpId
        { profile := none, device := "cpu", n := 3, n_data := 1,
          timestep := 1, no_compile := true }
        { dataset_seed := none, seed := none, jit_bailout_depth := 2 }
        [[("pos", 0)]] [[5]] 1).countP isWarmupCall = 2 + 4 :=
  (warmup_depth rpId
    { profile := none, device := "cpu", n := 3, n_data := 1,
      timestep := 1, no_compile := true }
    { dataset_seed := none, seed := none, jit_bailout_depth := 2 }
    [[("pos", 0)]] [[5]] 1 rfl (by decide) (by decide)).2.2.1

/-- C7: the run ends in the named NotImplementedError exactly when the sample
is nonempty and some sampled frame's atom count differs from the first
frame's; on a uniform sample no such error is raised (an empty sample raises
a plain IndexError instead, a different failure). -/
theorem variable_atoms_error (rp : Nat → Nat → List Nat) (args : Args)
    (config : BenchConfig) (dataset : List Frame) (st : Store) (t : ℚ) :
    mainEvents rp args config dataset st t =
        [Event.sample (sampledIndices rp (resolveSeed config) dataset.length args.n_data),
         Event.err BenchError.notImplementedError] ↔
      ((sampledFrames rp (resolveSeed config) dataset args.n_data).isEmpty = false ∧
        (sampledFrames rp (resolveSeed config) dataset args.n_data).all
          (fun d => natoms st d ==
            natoms st ((sampledFrames rp (resolveSeed config) dataset args.n_data).headD []))
          = false) := by
  simp only [mainEvents]
  by_cases h1 : (sampledFrames rp (resolveSeed config) dataset args.n_data).isEmpty
  · simp [h1]
  · by_cases h2 : (sampledFrames rp (resolveSeed config) dataset args.n_data).all
        (fun d => natoms st d ==
          natoms st ((sampledFrames rp (resolveSeed config) dataset args.n_data).headD []))
    · simp [h1, h2]
    · simp [h1, h2]

/-- C9: with a zero trial count (and a valid sample) the run emits the sample
and the dataset diagnostics and nothing more: no model build, no warmup, no
tracing or timing, no model invocation of any kind. -/
theorem zero_trials_quit (rp : Nat → Nat → List Nat) (args : Args)
    (config : BenchConfig) (dataset : List Frame) (st : Store) (t : ℚ)
    (hn : args.n = 0) (hok : sampleOK rp args config dataset st = true) :
    mainEvents rp args config dataset st t =
      [Event.sample (sampledIndices rp (resolveSeed config) dataset.length args.n_data),
       Event.diagnostics] ∧
    (mainEvents rp args config dataset st t).countP isModelCall = 0 ∧
    Event.buildModel ∉ mainEvents rp args config dataset st t := by
  have hmain := mainEvents_of_sampleOK rp args config dataset st t hok
  simp only [runEvents, hn, if_pos rfl] at hmain
  refine ⟨hmain, ?_, ?_⟩ <;> rw [hmain] <;>
    simp [List.countP_cons, isModelCall]

/-- Witness for zero_trials_quit at a concrete one-frame run with n = 0. -/
theorem zero_trials_quit_witness :
    mainEvents rpId
        { profile := none, device := "cpu", n := 0, n_data := 1,
          timestep := 1, no_compile := false }
        { dataset_seed := none, seed := none, jit_bailout_depth := 0 }
        [[("pos", 0)]] [[5]] 0 =
      [Event.sample [0], Event.diagnostics] :=
  (zero_trials_quit rpId
    { profile := none, device := "cpu", n := 0, n_data := 1,
      timestep := 1, no_compile := false }
    { dataset_seed := none, seed := none, jit_bailout_depth := 0 }
    [[("pos", 0)]] [[5]] 0 rfl (by decide)).1

/-- C8: frame selection is deterministic in the seed: two runs over the same
dataset whose configurations resolve to the same seed and whose n_data agree
sample the same index sequence, whatever their other arguments, stores or
measured times. -/
theorem seed_determinism (rp : Nat → Nat → List Nat) (a₁ a₂ : Args)
    (c₁ c₂ : BenchConfig) (dataset : List Frame) (st₁ st₂ : Store) (t₁ t₂ : ℚ)
    (hseed : resolveSeed c₁ = resolveSeed c₂) (hnd : a₁.n_data = a₂.n_data) :
    sampledIndices rp (resolveSeed c₁) dataset.length a₁.n_data =
        sampledIndices rp (resolveSeed c₂) dataset.length a₂.n_data ∧
    (mainEvents rp a₁ c₁ dataset st₁ t₁).head? =
      (mainEvents rp a₂ c₂ dataset st₂ t₂).head? := by
  have h : sampledIndices rp (resolveSeed c₁) dataset.length a₁.n_data =
      sampledIndices rp (resolveSeed c₂) dataset.length a₂.n_data := by
    rw [hseed, hnd]
  exact ⟨h, by rw [mainEvents_head, mainEvents_head, h]⟩

/-- Witness for seed_determinism: two runs with different trial counts,
modes, stores and times, whose configurations resolve the seed to 7 through
the two different keys, select the same frames. -/
theorem seed_determinism_witness :
    (mainEvents rpId
        { profile := none, device := "cpu", n := 3, n_data := 1,
          timestep := 1, no_compile := false }
        { dataset_seed := some 7, seed := none, jit_bailout_depth := 0 }
        [[("pos", 0)]] [[5]] 1).head? =
      (mainEvents rpId
        { profile := some "p", device := "gpu", n := 9, n_data := 1,
          timestep := 2, no_compile := true }
        { dataset_seed := none, seed := some 7, jit_bailout_depth := 5 }
        [[("pos", 0)]] [[5, 6]] 0).head? :=
  (seed_determinism rpId
    { profile := none, device := "cpu", n := 3, n_data := 1,
      timestep := 1, no_compile := false }
    { profile := some "p", device := "gpu", n := 9, n_data := 1,
      timestep := 2, no_compile := true }
    { dataset_seed := some 7, seed := none, jit_bailout_depth := 0 }
    { dataset_seed := none, seed := some 7, jit_bailout_depth := 5 }
    [[("pos", 0)]] [[5]] [[5, 6]] 1 0 rfl rfl).2

/-- C10: the sampling seed is resolved by the fallback chain dataset_seed,
then seed, then the constant 12345; the sampled index sequence of a run is a
function of the resolved seed, the dataset length and n_data alone. -/
theorem seed_fallback_chain (config : BenchConfig) :
    (∀ d, config.dataset_seed = some d → resolveSeed config = d) ∧
    (config.dataset_seed = none → ∀ s, config.seed = some s → resolveSeed config = s) ∧
    (config.dataset_seed = none → config.seed = none → resolveSeed config = 12345) ∧
    (∀ rp args dataset st t, (mainEvents rp args config dataset st t : List Event).head? =
      some (Event.sample (sampledIndices rp (resolveSeed config) dataset.length args.n_data))) ∧
    (∀ rp c₂ N n_data, resolveSeed c₂ = resolveSeed config →
      sampledIndices rp (resolveSeed c₂) N n_data =
        sampledIndices rp (resolveSeed config) N n_data) := by
  refine ⟨?_, ?_, ?_, ?_, ?_⟩
  · intro d hd
    rw [resolveSeed, hd, Option.getD_some]
  · intro h0 s hs
    rw [resolveSeed, h0, hs, Option.getD_none, Option.getD_some]
  · intro h0 hs
    rw [resolveSeed, h0, hs, Option.getD_none, Option.getD_none]
  · intro rp args dataset st t
    exact mainEvents_head rp args config dataset st t
  · intro rp c₂ N n_data h
    rw [h]

/-- Witness for seed_fallback_chain at the three kinds of configurations. -/
theorem seed_fallback_chain_witness :
    resolveSeed { dataset_seed := some 7, seed := some 3, jit_bailout_depth := 0 } = 7 ∧
    resolveSeed { dataset_seed := none, seed := some 3, jit_bailout_depth := 0 } = 3 ∧
    resolveSeed { dataset_seed := none, seed := none, jit_bailout_depth := 0 } = 12345 :=
  ⟨(seed_fallback_chain { dataset_seed := some 7, seed := some 3, jit_bailout_depth := 0 }).1
      7 rfl,
   (seed_fallback_chain { dataset_seed := none, seed := some 3, jit_bailout_depth := 0 }).2.1
      rfl 3 rfl,
   (seed_fallback_chain { dataset_seed := none, seed := none, jit_bailout_depth := 0 }).2.2.1
      rfl rfl⟩

end NequipBenchmark
